import Mathlib

/-!
Shallow embedding of the quiz runner (`src/main.py`).

Modelling conventions:
* Standard input is a finite list of lines (`List String`); each call to
  Python's `input()` consumes one line.  An empty remaining stream makes
  `input()` raise `EOFError`, modelled as a `none` result.
* Terminal output is an explicit trace (`List String`), one entry per
  `print`/prompt emission, produced even when the run later fails, since
  Python prints before the exception is raised.
* Python attributes: `ObjectiveQuestion.__init__` sets `self.answer = None`
  and `prompt_answer` overwrites it with `True`/`False`, so its answer is an
  `Option Bool` whose `none` is the Python `None` sentinel.
  `MultipleChoiceQuestion.__init__` never assigns `self.answer`; the
  attribute is either absent or a recorded string, so its answer is an
  `Option String` whose `none` means "attribute absent" (reading it raises
  `AttributeError`, modelled as a `none` result of `check_answer`).
* Python `x == y` between `None` and a `bool` is `False`; between two bools
  or two strings it is ordinary equality.
-/

/-- Python `None`-vs-`bool` equality: `None == b` is `False` for a bool `b`,
and `True/False` compare by value.  Embeds `self.answer == self.correct_answer`
of `ObjectiveQuestion.check_answer` where `self.answer ∈ {None, True, False}`. -/
def pyEqOptBool (a : Option Bool) (b : Bool) : Bool :=
  match a with
  | none => false
  | some x => x == b

/-- Embedding of Python `str.lower()`, characterwise (the inputs the claims
touch are ASCII, where Python and `Char.toLower` agree). -/
def pyLower (s : String) : String := ⟨s.data.map Char.toLower⟩

/-- Embedding of the whitespace stripping `int(...)` performs on its argument
before parsing. -/
def pyStrip (s : String) : List Char :=
  ((s.data.dropWhile Char.isWhitespace).reverse.dropWhile Char.isWhitespace).reverse

/-- Digit-string value; `none` when empty or a non-digit appears. Helper for `pyInt?`. -/
def digitsToNat? (cs : List Char) : Option Nat :=
  match cs with
  | [] => none
  | _ =>
    cs.foldl
      (fun acc c =>
        match acc with
        | none => none
        | some n => if c.isDigit then some (n * 10 + (c.toNat - 48)) else none)
      (some 0)

/-- Embedding of Python `int(s)` on a text line: surrounding whitespace is
stripped, an optional single `+`/`-` sign is allowed, then one or more ASCII
digits; anything else raises `ValueError` (`none`).  (Python also accepts
digit-group underscores and non-ASCII digits; no claim depends on those.) -/
def pyInt? (s : String) : Option Int :=
  match pyStrip s with
  | '-' :: cs => (digitsToNat? cs).map (fun n => -(n : Int))
  | '+' :: cs => (digitsToNat? cs).map (fun n => (n : Int))
  | cs => (digitsToNat? cs).map (fun n => (n : Int))

/-- The one question type, as a closed sum of the three variants of
`src/main.py` (`ObjectiveQuestion`, `DumbQuestion`, `MultipleChoiceQuestion`),
each carrying its instance attributes. -/
inductive Question where
  | objective (prompt : String) (correct_answer : Bool) (answer : Option Bool)
  | dumb
  | multipleChoice (prompt : String) (choices : List String)
      (correct_answer : String) (answer : Option String)
  deriving DecidableEq, Repr

/-- `ObjectiveQuestion.__init__`: stores prompt and correct answer and sets
`self.answer = None`. -/
def ObjectiveQuestion.init (prompt : String) (correct_answer : Bool) : Question :=
  .objective prompt correct_answer none

/-- `MultipleChoiceQuestion.__init__`: stores prompt, correct answer and
choices; it does NOT assign `self.answer`, so the attribute is absent. -/
def MultipleChoiceQuestion.init (prompt : String) (choices : List String)
    (correct_answer : String) : Question :=
  .multipleChoice prompt choices correct_answer none

/-- The prompt string of `ObjectiveQuestion.prompt_answer` (main.py:58). -/
def oqPromptStr : String := "Enter your answer (y/n): "

/-- The invalid-input message of `ObjectiveQuestion.prompt_answer` (main.py:74). -/
def oqErrMsg : String := "Invalid answer. Please enter \x27y\x27 or \x27n\x27."

/-- `ObjectiveQuestion.prompt_answer` (main.py:54-75) on an input stream:
reads a line, lowercases it; `"y"` records `true`, `"n"` records `false`,
anything else prints the error and recurses.  Returns the recorded boolean
with the unconsumed stream (or `none` on stream exhaustion = `EOFError`)
together with the output trace. -/
def ObjectiveQuestion.prompt_answer :
    List String → Option (Bool × List String) × List String
  | [] => (none, [oqPromptStr])
  | line :: rest =>
    if pyLower line = "y" then (some (true, rest), [oqPromptStr])
    else if pyLower line = "n" then (some (false, rest), [oqPromptStr])
    else
      let res := ObjectiveQuestion.prompt_answer rest
      (res.1, oqPromptStr :: oqErrMsg :: res.2)

/-- The enumerated choice listing printed by
`MultipleChoiceQuestion.prompt_answer` (main.py:127-128): line `i+1. choice`
for each choice. -/
def mcqListing (choices : List String) : List String :=
  choices.enum.map (fun ic => toString (ic.1 + 1) ++ ". " ++ ic.2)

/-- The prompt string of `MultipleChoiceQuestion.prompt_answer` (main.py:131). -/
def mcqPromptStr (n : Nat) : String := "Enter your answer (1-" ++ toString n ++ "): "

/-- The invalid-input message of `MultipleChoiceQuestion.prompt_answer`
(main.py:153-155). -/
def mcqErrMsg (n : Nat) : String :=
  "Invalid answer. Please enter a number between 1 and " ++ toString n ++ "."

/-- `MultipleChoiceQuestion.prompt_answer` (main.py:119-156) on an input
stream: prints the choice listing and prompt, reads a line, converts it with
`int(...)`; a value outside `[1, len(choices)]` or a parse failure prints the
error and recurses; success records `choices[answer - 1]` (the guard makes the
index in range, so the `getD` default is never used). -/
def MultipleChoiceQuestion.prompt_answer (choices : List String) :
    List String → Option (String × List String) × List String
  | [] => (none, mcqListing choices ++ [mcqPromptStr choices.length])
  | line :: rest =>
    match pyInt? line with
    | some i =>
      if 1 ≤ i ∧ i ≤ (choices.length : Int) then
        (some (choices.getD (i.toNat - 1) "", rest),
         mcqListing choices ++ [mcqPromptStr choices.length])
      else
        let res := MultipleChoiceQuestion.prompt_answer choices rest
        (res.1, (mcqListing choices ++ [mcqPromptStr choices.length])
                  ++ mcqErrMsg choices.length :: res.2)
    | none =>
      let res := MultipleChoiceQuestion.prompt_answer choices rest
      (res.1, (mcqListing choices ++ [mcqPromptStr choices.length])
                ++ mcqErrMsg choices.length :: res.2)

/-- `display` of each variant: prints the prompt, then runs the variant's
answer collection, storing the validated answer in the instance.
`DumbQuestion.display` (main.py:89-91) prints its fixed line and discards one
input line.  Result: updated question and unconsumed stream (`none` =
uncaught `EOFError`), plus the output trace. -/
def Question.display : Question → List String → Option (Question × List String) × List String
  | .objective p c _, inp =>
    match ObjectiveQuestion.prompt_answer inp with
    | (none, out) => (none, p :: out)
    | (some (b, rest), out) => (some (.objective p c (some b), rest), p :: out)
  | .dumb, inp =>
    match inp with
    | [] => (none, ["This is a dumb question", "Answer something, it doesn\x27t matter:"])
    | _ :: rest =>
      (some (.dumb, rest), ["This is a dumb question", "Answer something, it doesn\x27t matter:"])
  | .multipleChoice p cs c _, inp =>
    match MultipleChoiceQuestion.prompt_answer cs inp with
    | (none, out) => (none, p :: out)
    | (some (a, rest), out) => (some (.multipleChoice p cs c (some a), rest), p :: out)

/-- `check_answer` of each variant.  It only reads attributes and returns a
boolean; the (unchanged) question state is returned alongside to make the
absence of mutation explicit.  Reading the absent `answer` attribute of a
never-displayed `MultipleChoiceQuestion` raises `AttributeError` (`none`). -/
def Question.check_answer : Question → Option (Bool × Question)
  | .objective p c a => some (pyEqOptBool a c, .objective p c a)
  | .dumb => some (true, .dumb)
  | .multipleChoice p cs c a =>
    match a with
    | none => none
    | some s => some (s == c, .multipleChoice p cs c (some s))

/-- `Quiz` (main.py:165-207): ordered questions, running score, intro text. -/
structure Quiz where
  questions : List Question
  score : Nat
  intro : String
  deriving DecidableEq, Repr

/-- `Quiz.__init__` (main.py:170-173): empty question list, score 0. -/
def Quiz.init (intro : String) : Quiz := ⟨[], 0, intro⟩

/-- `Quiz.add_question` (main.py:175-182): appends to the question list. -/
def Quiz.add_question (quiz : Quiz) (question : Question) : Quiz :=
  { quiz with questions := quiz.questions ++ [question] }

/-- The question loop of `Quiz.run` (main.py:194-203): for each question in
order, `display` it, print a blank line, `check_answer`, and increment the
score when the answer is correct.  Returns the updated question states, final
score and unconsumed input (`none` = an uncaught exception ended the run),
plus the output trace. -/
def runLoop : List Question → Nat → List String →
    Option (List Question × Nat × List String) × List String
  | [], s, inp => (some ([], s, inp), [])
  | q :: qs, s, inp =>
    match q.display inp with
    | (none, out1) => (none, out1)
    | (some (q', mid), out1) =>
      match q'.check_answer with
      | none => (none, out1 ++ [""])
      | some (b, q'') =>
        match runLoop qs (if b then s + 1 else s) mid with
        | (none, out2) => (none, out1 ++ [""] ++ out2)
        | (some (qs', s', rest), out2) =>
          (some (q'' :: qs', s', rest), out1 ++ [""] ++ out2)

/-- The final score line of `Quiz.run` (main.py:207); the f-string ends in
`\n\n` on top of `print`'s own newline. -/
def scoreLine (score total : Nat) : String :=
  "Your score is " ++ toString score ++ " out of " ++ toString total ++ "\n\n"

/-- `Quiz.run` (main.py:184-207): prints the intro, runs the question loop,
then prints the results banner and the score line (the latter two only when
no exception escaped the loop). -/
def Quiz.run (quiz : Quiz) (inp : List String) : Option (Quiz × List String) × List String :=
  match runLoop quiz.questions quiz.score inp with
  | (none, out) => (none, quiz.intro :: out)
  | (some (qs', s', rest), out) =>
    (some ({ quiz with questions := qs', score := s' }, rest),
     quiz.intro :: (out ++ ["=== Results ===", scoreLine s' qs'.length]))

/-- Whether `check_answer` currently returns `True` for this question. -/
def isCorrect (q : Question) : Bool :=
  match q.check_answer with
  | some (b, _) => b
  | none => false

/-- Number of questions in the list whose `check_answer` returns `True`. -/
def countCorrect : List Question → Nat
  | [] => 0
  | q :: qs => (if isCorrect q then 1 else 0) + countCorrect qs

/-- Whether the Python object currently has an `answer` attribute at all:
`ObjectiveQuestion.__init__` always creates it (as `None`);
`MultipleChoiceQuestion` and `DumbQuestion` only gain one when
`prompt_answer` assigns it. -/
def answerFieldExists : Question → Bool
  | .objective _ _ _ => true
  | .dumb => false
  | .multipleChoice _ _ _ a => a.isSome

/-- Whether the `answer` attribute exists and holds the `None` sentinel. -/
def answerIsNoneSentinel : Question → Bool
  | .objective _ _ none => true
  | _ => false

/-- Whether a validated user answer has been recorded on the question. -/
def hasRecordedAnswer : Question → Bool
  | .objective _ _ (some _) => true
  | .multipleChoice _ _ _ (some _) => true
  | _ => false

/-- The trace relation of one pass of the question loop: each question of the
list is displayed exactly once, in list order, each display consuming the
input stream left by the previous one, and the output is the concatenation of
the per-question display outputs, each followed by the blank separator line. -/
def RunTrace : List Question → List String → List Question → List String → List String → Prop
  | [], inp, qs', rest, out => qs' = [] ∧ rest = inp ∧ out = []
  | q :: qs, inp, qs', rest, out =>
    ∃ q' mid out1 qs'' out2,
      q.display inp = (some (q', mid), out1) ∧
      qs' = q' :: qs'' ∧
      out = out1 ++ [""] ++ out2 ∧
      RunTrace qs mid qs'' rest out2

/-- A quiz built the way the driver code does: `Quiz(intro)` followed by
`add_question` for each question in order. -/
def buildQuiz (intro : String) (qs : List Question) : Quiz :=
  qs.foldl Quiz.add_question (Quiz.init intro)

/-- The yes/no question of the driver's biology quiz (main.py:241-243). -/
def oqEx : Question := .objective "Is the sky blue?" true none

/-- The multiple-choice question of the driver's biology quiz (main.py:232-238). -/
def mcqEx : Question :=
  .multipleChoice "What do plants need for growth?"
    ["water/sunlight", "food", "coffee", "rain"] "water/sunlight" none

/-- A fresh two-question quiz used for concrete evaluations. -/
def quizEx : Quiz := ⟨[oqEx, mcqEx], 0, "Intro"⟩

/-- The state of `quizEx` after a run on input `["y", "1"]`. -/
def quizExAfter : Quiz :=
  ⟨[.objective "Is the sky blue?" true (some true),
    .multipleChoice "What do plants need for growth?"
      ["water/sunlight", "food", "coffee", "rain"] "water/sunlight"
      (some "water/sunlight")], 2, "Intro"⟩

/-! ## Helper lemmas (shared across the claim proofs) -/

/-- `check_answer` returns the question unchanged. -/
lemma check_answer_state (q q' : Question) (b : Bool)
    (h : q.check_answer = some (b, q')) : q' = q := by
  cases q with
  | objective p c a =>
    simp [Question.check_answer] at h
    exact h.2.symm
  | dumb =>
    simp [Question.check_answer] at h
    exact h.2.symm
  | multipleChoice p cs c a =>
    cases a with
    | none => simp [Question.check_answer] at h
    | some s =>
      simp [Question.check_answer] at h
      exact h.2.symm

/-- The boolean returned by `check_answer` is what `isCorrect` computes. -/
lemma isCorrect_of_check (q q' : Question) (b : Bool)
    (h : q.check_answer = some (b, q')) : isCorrect q = b := by
  simp [isCorrect, h]

/-- A successful `display` of a yes/no question stores a boolean answer and
changes nothing else. -/
lemma display_objective_result (p : String) (c : Bool) (a : Option Bool)
    (inp : List String) (q' : Question) (rest : List String)
    (h : ((Question.objective p c a).display inp).1 = some (q', rest)) :
    ∃ b, q' = .objective p c (some b) := by
  rcases hp : ObjectiveQuestion.prompt_answer inp with ⟨r, out⟩
  cases r with
  | none => simp [Question.display, hp] at h
  | some t =>
    obtain ⟨b, mid⟩ := t
    simp [Question.display, hp] at h
    exact ⟨b, h.1.symm⟩

/-- A successful `display` of a multiple-choice question stores a string
answer and changes nothing else. -/
lemma display_mcq_result (p : String) (cs : List String) (c : String)
    (a : Option String) (inp : List String) (q' : Question) (rest : List String)
    (h : ((Question.multipleChoice p cs c a).display inp).1 = some (q', rest)) :
    ∃ s, q' = .multipleChoice p cs c (some s) := by
  rcases hp : MultipleChoiceQuestion.prompt_answer cs inp with ⟨r, out⟩
  cases r with
  | none => simp [Question.display, hp] at h
  | some t =>
    obtain ⟨s, mid⟩ := t
    simp [Question.display, hp] at h
    exact ⟨s, h.1.symm⟩

/-- A successful `display` of the dumb question leaves it unchanged. -/
lemma display_dumb_result (inp : List String) (q' : Question) (rest : List String)
    (h : (Question.dumb.display inp).1 = some (q', rest)) : q' = .dumb := by
  cases inp with
  | nil => simp [Question.display] at h
  | cons l rest' =>
    simp [Question.display] at h
    exact h.1.symm

/-- Soundness of one pass of the question loop: on success the final score is
the starting score plus the number of questions now answering correctly, no
question is dropped or duplicated, and the trace relation holds. -/
lemma runLoop_sound (qs : List Question) (s : Nat) (inp : List String)
    (qs' : List Question) (s' : Nat) (rest : List String)
    (h : (runLoop qs s inp).1 = some (qs', s', rest)) :
    s' = s + countCorrect qs' ∧ qs'.length = qs.length ∧
    RunTrace qs inp qs' rest (runLoop qs s inp).2 := by
  induction qs generalizing s inp qs' s' rest with
  | nil =>
    simp [runLoop] at h
    obtain ⟨h1, h2, h3⟩ := h
    subst h1; subst h2; subst h3
    simp [countCorrect, RunTrace, runLoop]
  | cons q qs ih =>
    rcases hd : q.display inp with ⟨r1, out1⟩
    cases r1 with
    | none => simp [runLoop, hd] at h
    | some t1 =>
      obtain ⟨q', mid⟩ := t1
      rcases hc : q'.check_answer with _ | ⟨b, q''⟩
      · simp [runLoop, hd, hc] at h
      · rcases hr : runLoop qs (if b then s + 1 else s) mid with ⟨r2, out2⟩
        cases r2 with
        | none => simp [runLoop, hd, hc, hr] at h
        | some t2 =>
          obtain ⟨qs0, s0, rest0⟩ := t2
          simp [runLoop, hd, hc, hr] at h
          obtain ⟨hqs, hs0, hrest⟩ := h
          have ihr := ih (if b then s + 1 else s) mid qs0 s0 rest0 (by rw [hr])
          obtain ⟨ihs, ihlen, ihtr⟩ := ihr
          have hq'' : q'' = q' := check_answer_state q' q'' b hc
          have hcorr : isCorrect q'' = b := by
            rw [hq'']; exact isCorrect_of_check q' q'' b hc
          subst hqs; subst hs0; subst hrest
          refine ⟨?_, ?_, ?_⟩
          · simp only [countCorrect, hcorr]
            cases b <;> simp at ihs ⊢ <;> omega
          · simp [ihlen]
          · refine ⟨q', mid, out1, qs0, out2, hd, by rw [hq''], ?_, ?_⟩
            · simp [runLoop, hd, hc, hr]
            · have : (runLoop qs (if b then s + 1 else s) mid).2 = out2 := by rw [hr]
              rwa [this] at ihtr

/-- Soundness of `Quiz.run`: a completed run keeps the intro, adds the number
of now-correct questions to the incoming score, keeps the number of
questions, prints the intro first and the banner and score line last, and its
question loop satisfies the trace relation. -/
lemma run_spec (quiz : Quiz) (inp : List String) (quiz' : Quiz) (rest : List String)
    (h : (quiz.run inp).1 = some (quiz', rest)) :
    quiz'.intro = quiz.intro ∧
    quiz'.score = quiz.score + countCorrect quiz'.questions ∧
    quiz'.questions.length = quiz.questions.length ∧
    (quiz.run inp).2 = quiz.intro :: ((runLoop quiz.questions quiz.score inp).2
        ++ ["=== Results ===", scoreLine quiz'.score quiz'.questions.length]) ∧
    RunTrace quiz.questions inp quiz'.questions rest (runLoop quiz.questions quiz.score inp).2 := by
  rcases hr : runLoop quiz.questions quiz.score inp with ⟨r, out⟩
  cases r with
  | none => simp [Quiz.run, hr] at h
  | some t =>
    obtain ⟨qs', s', rest'⟩ := t
    simp [Quiz.run, hr] at h
    obtain ⟨hq, hrest⟩ := h
    have hsound := runLoop_sound quiz.questions quiz.score inp qs' s' rest' (by rw [hr])
    obtain ⟨hs, hlen, htr⟩ := hsound
    subst hq; subst hrest
    refine ⟨rfl, hs, hlen, ?_, ?_⟩
    · simp [Quiz.run, hr]
    · have h2 : (runLoop quiz.questions quiz.score inp).2 = out := by rw [hr]
      rw [h2] at htr
      simpa [hr] using htr

/-- Folding `add_question` over a question list appends it, leaving score and
intro untouched. -/
lemma foldl_add_question (quiz : Quiz) (qs : List Question) :
    (qs.foldl Quiz.add_question quiz).questions = quiz.questions ++ qs ∧
    (qs.foldl Quiz.add_question quiz).score = quiz.score ∧
    (qs.foldl Quiz.add_question quiz).intro = quiz.intro := by
  induction qs generalizing quiz with
  | nil => simp
  | cons q qs ih =>
    have := ih (quiz.add_question q)
    simpa [Quiz.add_question, List.append_assoc] using this

/-! ## Claim theorems -/

/-- C1: on a fresh `Quiz` (score 0), a completed `Quiz.run` prints the intro
once at the head of the output, then processes each question in sequence
order — display, blank separator line, score increment exactly when
`check_answer` returns true (captured by the `RunTrace` relation and by the
final score equalling the number of correctly answered questions) — and ends
with the results banner followed by `Your score is {score} out of {N}`, where
the score is the number of questions whose `check_answer` returned true and
`N` is the length of the question sequence. -/
theorem quiz_run_scoring (quiz : Quiz) (inp : List String) (quiz' : Quiz) (rest : List String)
    (h0 : quiz.score = 0) (h : (quiz.run inp).1 = some (quiz', rest)) :
    quiz'.score = countCorrect quiz'.questions ∧
    quiz'.questions.length = quiz.questions.length ∧
    (quiz.run inp).2 = quiz.intro :: ((runLoop quiz.questions 0 inp).2
        ++ ["=== Results ===", scoreLine (countCorrect quiz'.questions) quiz.questions.length]) ∧
    RunTrace quiz.questions inp quiz'.questions rest (runLoop quiz.questions 0 inp).2 := by
  have hs := run_spec quiz inp quiz' rest h
  rw [h0] at hs
  obtain ⟨hi, hsc, hlen, hout, htr⟩ := hs
  have hsc' : quiz'.score = countCorrect quiz'.questions := by omega
  refine ⟨hsc', hlen, ?_, htr⟩
  rw [hout, hsc', hlen]

/-- Witness for C1 at the biology-quiz questions with input `["y", "1"]`. -/
theorem quiz_run_scoring_witness :
    quizExAfter.score = countCorrect quizExAfter.questions ∧
    quizExAfter.questions.length = quizEx.questions.length ∧
    (quizEx.run ["y", "1"]).2 = quizEx.intro :: ((runLoop quizEx.questions 0 ["y", "1"]).2
        ++ ["=== Results ===",
            scoreLine (countCorrect quizExAfter.questions) quizEx.questions.length]) ∧
    RunTrace quizEx.questions ["y", "1"] quizExAfter.questions []
      (runLoop quizEx.questions 0 ["y", "1"]).2 :=
  quiz_run_scoring quizEx ["y", "1"] quizExAfter [] rfl (by decide)

/-- C6: running the same `Quiz` a second time replays all questions and adds
the new correct-answer count to the existing score instead of resetting it:
after two completed runs answering `c1` and `c2` questions correctly, the
stored score is `c1 + c2`, the question count is unchanged, and the second
run's report prints `c1 + c2`. -/
theorem quiz_run_accumulates (quiz quiz1 quiz2 : Quiz)
    (inp1 inp2 rest1 rest2 : List String)
    (h0 : quiz.score = 0)
    (h1 : (quiz.run inp1).1 = some (quiz1, rest1))
    (h2 : (quiz1.run inp2).1 = some (quiz2, rest2)) :
    quiz1.score = countCorrect quiz1.questions ∧
    quiz2.score = countCorrect quiz1.questions + countCorrect quiz2.questions ∧
    quiz2.questions.length = quiz.questions.length ∧
    (quiz1.run inp2).2 = quiz1.intro :: ((runLoop quiz1.questions quiz1.score inp2).2
        ++ ["=== Results ===",
            scoreLine (countCorrect quiz1.questions + countCorrect quiz2.questions)
              quiz2.questions.length]) := by
  obtain ⟨-, a1, l1, -, -⟩ := run_spec quiz inp1 quiz1 rest1 h1
  obtain ⟨-, a2, l2, o2, -⟩ := run_spec quiz1 inp2 quiz2 rest2 h2
  rw [h0] at a1
  have hs1 : quiz1.score = countCorrect quiz1.questions := by omega
  have hs2 : quiz2.score = countCorrect quiz1.questions + countCorrect quiz2.questions := by
    omega
  refine ⟨hs1, hs2, by omega, ?_⟩
  rw [o2, hs2]

/-- Witness for C6: a one-question quiz answered correctly, then re-run and
answered incorrectly; the second run reports score 1 (= 1 + 0). -/
theorem quiz_run_accumulates_witness :
    (⟨[.objective "Is 1+1=2" true (some true)], 1, "M"⟩ : Quiz).score =
      countCorrect (⟨[.objective "Is 1+1=2" true (some true)], 1, "M"⟩ : Quiz).questions ∧
    (⟨[.objective "Is 1+1=2" true (some false)], 1, "M"⟩ : Quiz).score =
      countCorrect (⟨[.objective "Is 1+1=2" true (some true)], 1, "M"⟩ : Quiz).questions +
        countCorrect (⟨[.objective "Is 1+1=2" true (some false)], 1, "M"⟩ : Quiz).questions ∧
    (⟨[.objective "Is 1+1=2" true (some false)], 1, "M"⟩ : Quiz).questions.length =
      (⟨[.objective "Is 1+1=2" true none], 0, "M"⟩ : Quiz).questions.length ∧
    ((⟨[.objective "Is 1+1=2" true (some true)], 1, "M"⟩ : Quiz).run ["n"]).2 =
      (⟨[.objective "Is 1+1=2" true (some true)], 1, "M"⟩ : Quiz).intro ::
        (((runLoop (⟨[.objective "Is 1+1=2" true (some true)], 1, "M"⟩ : Quiz).questions
              (⟨[.objective "Is 1+1=2" true (some true)], 1, "M"⟩ : Quiz).score ["n"]).2)
          ++ ["=== Results ===",
              scoreLine
                (countCorrect (⟨[.objective "Is 1+1=2" true (some true)], 1, "M"⟩ : Quiz).questions +
                  countCorrect
                    (⟨[.objective "Is 1+1=2" true (some false)], 1, "M"⟩ : Quiz).questions)
                (⟨[.objective "Is 1+1=2" true (some false)], 1, "M"⟩ : Quiz).questions.length]) :=
  quiz_run_accumulates
    ⟨[.objective "Is 1+1=2" true none], 0, "M"⟩
    ⟨[.objective "Is 1+1=2" true (some true)], 1, "M"⟩
    ⟨[.objective "Is 1+1=2" true (some false)], 1, "M"⟩
    ["y"] ["n"] [] [] rfl (by decide) (by decide)

/-- C8: a quiz assembled through `add_question` keeps insertion order, and a
completed `Quiz.run` displays every question, in exactly that order, never
starting question `N+1` before question `N`'s answer is recorded — captured
by the `RunTrace` relation, whose step for the `N+1`-st question consumes the
input stream left over only once the `N`-th display has returned. -/
theorem quiz_preserves_order (intro : String) (qs : List Question) (inp : List String)
    (quiz' : Quiz) (rest : List String)
    (h : ((buildQuiz intro qs).run inp).1 = some (quiz', rest)) :
    (buildQuiz intro qs).questions = qs ∧
    quiz'.questions.length = qs.length ∧
    RunTrace qs inp quiz'.questions rest (runLoop qs 0 inp).2 := by
  obtain ⟨hq, hs0, -⟩ := foldl_add_question (Quiz.init intro) qs
  have hq' : (buildQuiz intro qs).questions = qs := by
    simpa [buildQuiz, Quiz.init] using hq
  have hs0' : (buildQuiz intro qs).score = 0 := by
    simpa [buildQuiz, Quiz.init] using hs0
  obtain ⟨-, -, hlen, -, htr⟩ := run_spec (buildQuiz intro qs) inp quiz' rest h
  rw [hq', hs0'] at htr
  rw [hq'] at hlen
  exact ⟨hq', hlen, htr⟩

/-- Witness for C8: the biology-quiz questions added in order and run on
valid input. -/
theorem quiz_preserves_order_witness :
    (buildQuiz "Intro" [oqEx, mcqEx]).questions = [oqEx, mcqEx] ∧
    quizExAfter.questions.length = ([oqEx, mcqEx] : List Question).length ∧
    RunTrace [oqEx, mcqEx] ["y", "1"] quizExAfter.questions []
      (runLoop [oqEx, mcqEx] 0 ["y", "1"]).2 :=
  quiz_preserves_order "Intro" [oqEx, mcqEx] ["y", "1"] quizExAfter [] (by decide)

/-- C7: after any completed `display`, `check_answer` succeeds with some
boolean, returns the question state unchanged, and every further call yields
the same boolean and the same state — idempotent, side-effect free, no
re-prompting (it consumes no input at all). -/
theorem check_answer_idempotent (q : Question) (inp : List String)
    (q' : Question) (rest : List String)
    (h : (q.display inp).1 = some (q', rest)) :
    ∃ b, q'.check_answer = some (b, q') ∧
      ∀ b2 q2, q'.check_answer = some (b2, q2) → b2 = b ∧ q2 = q' := by
  have hex : ∃ b, q'.check_answer = some (b, q') := by
    cases q with
    | objective p c a =>
      obtain ⟨b, hb⟩ := display_objective_result p c a inp q' rest h
      exact ⟨pyEqOptBool (some b) c, by rw [hb]; rfl⟩
    | dumb =>
      have hd := display_dumb_result inp q' rest h
      exact ⟨true, by rw [hd]; rfl⟩
    | multipleChoice p cs c a =>
      obtain ⟨s, hs⟩ := display_mcq_result p cs c a inp q' rest h
      exact ⟨s == c, by rw [hs]; rfl⟩
  obtain ⟨b, hb⟩ := hex
  refine ⟨b, hb, fun b2 q2 h2 => ?_⟩
  rw [hb] at h2
  simp at h2
  exact ⟨h2.1.symm, h2.2.symm⟩

/-- Witness for C7 at a displayed yes/no question. -/
theorem check_answer_idempotent_witness :
    ∃ b, (Question.objective "Is the sky blue?" true (some true)).check_answer =
        some (b, Question.objective "Is the sky blue?" true (some true)) ∧
      ∀ b2 q2,
        (Question.objective "Is the sky blue?" true (some true)).check_answer = some (b2, q2) →
          b2 = b ∧ q2 = Question.objective "Is the sky blue?" true (some true) :=
  check_answer_idempotent oqEx ["y"]
    (Question.objective "Is the sky blue?" true (some true)) [] (by decide)

/-- C10: calling `check_answer` on a freshly constructed `ObjectiveQuestion`,
before any `display`, returns `False` whatever the correct answer is: the
recorded answer is still the `None` sentinel and Python's `None == bool`
comparison is `False`. -/
theorem oq_check_before_display_false (p : String) (c : Bool) :
    (ObjectiveQuestion.init p c).check_answer =
      some (false, ObjectiveQuestion.init p c) := rfl

/-- C5 counterexample: a freshly constructed `MultipleChoiceQuestion` (the
driver's own plant question) has NO `answer` attribute at all — `__init__`
(main.py:101-110) never assigns it — so "every variant's answer field exists
and holds the sentinel value" fails; reading it via `check_answer` raises
`AttributeError` rather than comparing a sentinel. -/
theorem mcq_answer_attr_absent_after_init :
    answerFieldExists (MultipleChoiceQuestion.init "What do plants need for growth?"
      ["water/sunlight", "food", "coffee", "rain"] "water/sunlight") = false ∧
    (MultipleChoiceQuestion.init "What do plants need for growth?"
      ["water/sunlight", "food", "coffee", "rain"] "water/sunlight").check_answer = none := by
  decide

/-- C5 amended: from construction until `display` completes no variant holds
a recorded answer, but the form of "unset" differs: `ObjectiveQuestion` has
an `answer` field holding the `None` sentinel, while `MultipleChoiceQuestion`
(and `DumbQuestion`) have no `answer` attribute at all until `display`
records one; a completed `display` always records an answer for the yes/no
and multiple-choice variants. -/
theorem answer_unset_until_display (p : String) (c : Bool)
    (pm cm : String) (chs : List String) :
    answerFieldExists (ObjectiveQuestion.init p c) = true ∧
    answerIsNoneSentinel (ObjectiveQuestion.init p c) = true ∧
    hasRecordedAnswer (ObjectiveQuestion.init p c) = false ∧
    answerFieldExists (MultipleChoiceQuestion.init pm chs cm) = false ∧
    hasRecordedAnswer (MultipleChoiceQuestion.init pm chs cm) = false ∧
    answerFieldExists Question.dumb = false ∧
    (∀ inp q' rest, ((ObjectiveQuestion.init p c).display inp).1 = some (q', rest) →
      hasRecordedAnswer q' = true) ∧
    (∀ inp q' rest, ((MultipleChoiceQuestion.init pm chs cm).display inp).1 = some (q', rest) →
      hasRecordedAnswer q' = true) := by
  refine ⟨rfl, rfl, rfl, rfl, rfl, rfl, fun inp q' rest h => ?_, fun inp q' rest h => ?_⟩
  · obtain ⟨b, hb⟩ := display_objective_result p c none inp q' rest h
    rw [hb]; rfl
  · obtain ⟨s, hs⟩ := display_mcq_result pm chs cm none inp q' rest h
    rw [hs]; rfl

/-- C2: yes/no input validation is case-insensitive via lowercasing: a line
lowercasing to `"y"` is accepted and records `true`, one lowercasing to `"n"`
records `false`, and any other line prints the invalid-answer message and
re-prompts without recording anything; `check_answer` then returns exactly
`recorded answer == correct_answer`. -/
theorem oq_validation (l : String) (rest : List String) (p : String) (c b : Bool) :
    (pyLower l = "y" →
      (Question.objective p c none).display (l :: rest) =
        (some (.objective p c (some true), rest), [p, oqPromptStr])) ∧
    (pyLower l = "n" →
      (Question.objective p c none).display (l :: rest) =
        (some (.objective p c (some false), rest), [p, oqPromptStr])) ∧
    (pyLower l ≠ "y" → pyLower l ≠ "n" →
      ObjectiveQuestion.prompt_answer (l :: rest) =
        ((ObjectiveQuestion.prompt_answer rest).1,
         oqPromptStr :: oqErrMsg :: (ObjectiveQuestion.prompt_answer rest).2)) ∧
    (Question.objective p c (some b)).check_answer =
      some ((b == c), .objective p c (some b)) := by
  refine ⟨fun h => ?_, fun h => ?_, fun h1 h2 => ?_, rfl⟩
  · simp [Question.display, ObjectiveQuestion.prompt_answer, h]
  · simp [Question.display, ObjectiveQuestion.prompt_answer, h]
  · simp [ObjectiveQuestion.prompt_answer, h1, h2]

/-- Witness for C2 covering all four cases: `"Y"` accepted as true, `"N"`
accepted as false, `"maybe"` rejected with one error line, and a
`check_answer` comparison. -/
theorem oq_validation_witness :
    (Question.objective "Is the sky blue?" true none).display ("Y" :: []) =
      (some (.objective "Is the sky blue?" true (some true), []),
       ["Is the sky blue?", oqPromptStr]) ∧
    (Question.objective "Is 4-2=2" true none).display ("N" :: []) =
      (some (.objective "Is 4-2=2" true (some false), []), ["Is 4-2=2", oqPromptStr]) ∧
    ObjectiveQuestion.prompt_answer ("maybe" :: ["y"]) =
      ((ObjectiveQuestion.prompt_answer ["y"]).1,
       oqPromptStr :: oqErrMsg :: (ObjectiveQuestion.prompt_answer ["y"]).2) ∧
    (Question.objective "q" true (some false)).check_answer =
      some (false, .objective "q" true (some false)) :=
  ⟨(oq_validation "Y" [] "Is the sky blue?" true true).1 (by decide),
   (oq_validation "N" [] "Is 4-2=2" true true).2.1 (by decide),
   (oq_validation "maybe" ["y"] "q" true true).2.2.1 (by decide) (by decide),
   (oq_validation "x" [] "q" true false).2.2.2⟩

/-- C9: a `MultipleChoiceQuestion` with an empty choices list never accepts
any input line: no integer lies in `[1, 0]`, so every line prints the
invalid-answer error and re-prompts; `display` therefore never records an
answer and never terminates normally on any (finite) input stream — every
stream ends in the re-prompt loop still running (`EOFError` here). -/
theorem mcq_empty_choices_never_accepts (inp : List String) (p cAns : String)
    (a : Option String) :
    (MultipleChoiceQuestion.prompt_answer [] inp).1 = none ∧
    ((Question.multipleChoice p [] cAns a).display inp).1 = none ∧
    ∀ l rest, MultipleChoiceQuestion.prompt_answer [] (l :: rest) =
      ((MultipleChoiceQuestion.prompt_answer [] rest).1,
       mcqPromptStr 0 :: mcqErrMsg 0 :: (MultipleChoiceQuestion.prompt_answer [] rest).2) := by
  have step : ∀ l rest, MultipleChoiceQuestion.prompt_answer [] (l :: rest) =
      ((MultipleChoiceQuestion.prompt_answer [] rest).1,
       mcqPromptStr 0 :: mcqErrMsg 0 :: (MultipleChoiceQuestion.prompt_answer [] rest).2) := by
    intro l rest
    rcases hp : pyInt? l with _ | i
    · simp [MultipleChoiceQuestion.prompt_answer, hp, mcqListing]
    · have hno : ¬(1 ≤ i ∧ i ≤ ((List.length ([] : List String) : Int))) := by
        simp only [List.length_nil, Int.natCast_zero]
        omega
      simp [MultipleChoiceQuestion.prompt_answer, hp, hno, mcqListing]
      omega
  have main : ∀ inp, (MultipleChoiceQuestion.prompt_answer ([] : List String) inp).1 = none := by
    intro inp
    induction inp with
    | nil => simp [MultipleChoiceQuestion.prompt_answer]
    | cons l rest ih => rw [step l rest]; exact ih
  refine ⟨main inp, ?_, step⟩
  rcases hpa : MultipleChoiceQuestion.prompt_answer ([] : List String) inp with ⟨r, out⟩
  have : r = none := by
    have := main inp
    rw [hpa] at this
    exact this
  subst this
  simp [Question.display, hpa]

/-- C3: a multiple-choice input line is accepted iff it parses as an integer
`i` with `1 ≤ i ≤ N`; on acceptance the recorded answer is the choice TEXT at
position `i - 1`, and otherwise (parse failure or out of range) the
invalid-answer error is printed and the question re-prompts; `check_answer`
returns exactly `recorded choice text == correct_answer`. -/
theorem mcq_validation (l : String) (rest : List String) (p cAns : String)
    (choices : List String) (a : Option String) (i : Int) (s : String) :
    (pyInt? l = some i → 1 ≤ i → i ≤ (choices.length : Int) →
      ∃ t, choices.get? (i.toNat - 1) = some t ∧
        (Question.multipleChoice p choices cAns a).display (l :: rest) =
          (some (.multipleChoice p choices cAns (some t), rest),
           p :: (mcqListing choices ++ [mcqPromptStr choices.length]))) ∧
    ((∀ j : Int, pyInt? l = some j → ¬(1 ≤ j ∧ j ≤ (choices.length : Int))) →
      MultipleChoiceQuestion.prompt_answer choices (l :: rest) =
        ((MultipleChoiceQuestion.prompt_answer choices rest).1,
         (mcqListing choices ++ [mcqPromptStr choices.length])
           ++ mcqErrMsg choices.length :: (MultipleChoiceQuestion.prompt_answer choices rest).2)) ∧
    (Question.multipleChoice p choices cAns (some s)).check_answer =
      some ((s == cAns), .multipleChoice p choices cAns (some s)) := by
  refine ⟨fun hp h1 h2 => ?_, fun hinv => ?_, rfl⟩
  · have hlt : i.toNat - 1 < choices.length := by omega
    refine ⟨choices.get ⟨i.toNat - 1, hlt⟩, List.get?_eq_get hlt, ?_⟩
    have hg : choices.getD (i.toNat - 1) "" = choices.get ⟨i.toNat - 1, hlt⟩ := by
      rw [List.getD_eq_getElem?_getD, List.getElem?_eq_getElem hlt]
      rfl
    simp [Question.display, MultipleChoiceQuestion.prompt_answer, hp, h1, h2, hg]
    rw [List.getElem?_eq_getElem hlt]
    rfl
  · rcases hp : pyInt? l with _ | j
    · simp [MultipleChoiceQuestion.prompt_answer, hp]
    · have hno := hinv j hp
      simp [MultipleChoiceQuestion.prompt_answer, hp, hno]

/-- Witness for C3 with choices `["a", "b", "c"]`: input `"2"` records the
text `"b"`; input `"abc"` is rejected and re-prompts; `check_answer` compares
text with text. -/
theorem mcq_validation_witness :
    (∃ t, (["a", "b", "c"] : List String).get? ((2 : Int).toNat - 1) = some t ∧
      (Question.multipleChoice "q" ["a", "b", "c"] "b" none).display ("2" :: []) =
        (some (.multipleChoice "q" ["a", "b", "c"] "b" (some t), []),
         "q" :: (mcqListing ["a", "b", "c"] ++ [mcqPromptStr 3]))) ∧
    MultipleChoiceQuestion.prompt_answer ["a", "b", "c"] ("abc" :: ["2"]) =
      ((MultipleChoiceQuestion.prompt_answer ["a", "b", "c"] ["2"]).1,
       (mcqListing ["a", "b", "c"] ++ [mcqPromptStr 3])
         ++ mcqErrMsg 3 :: (MultipleChoiceQuestion.prompt_answer ["a", "b", "c"] ["2"]).2) ∧
    (Question.multipleChoice "q" ["a", "b", "c"] "b" (some "b")).check_answer =
      some (true, .multipleChoice "q" ["a", "b", "c"] "b" (some "b")) :=
  ⟨(mcq_validation "2" [] "q" "b" ["a", "b", "c"] none 2 "b").1 (by decide) (by decide) (by decide),
   (mcq_validation "abc" ["2"] "q" "b" ["a", "b", "c"] none 2 "b").2.1
     (by intro j hj; rw [show pyInt? "abc" = none from rfl] at hj; cases hj),
   by simpa using (mcq_validation "x" [] "q" "b" ["a", "b", "c"] none 2 "b").2.2⟩

/-- Re-prompt loop of the yes/no question: `k` invalid lines followed by one
valid line give exactly one prompt-and-error pair per invalid line, then the
final prompt, acceptance of the valid line, and termination with exactly the
suffix after the valid line unconsumed. -/
lemma oq_reprompt_aux (bad : List String) (v : String) (rest : List String)
    (hb : ∀ l ∈ bad, pyLower l ≠ "y" ∧ pyLower l ≠ "n")
    (hv : pyLower v = "y" ∨ pyLower v = "n") :
    ObjectiveQuestion.prompt_answer (bad ++ v :: rest) =
      (some ((pyLower v == "y"), rest),
       (List.replicate bad.length [oqPromptStr, oqErrMsg]).flatten ++ [oqPromptStr]) := by
  induction bad with
  | nil =>
    rcases hv with h | h
    · simp [ObjectiveQuestion.prompt_answer, h]
    · have hne : pyLower v ≠ "y" := by
        rw [h]
        decide
      simp [ObjectiveQuestion.prompt_answer, h, hne]
  | cons lbad bad ih =>
    have hl := hb lbad (by simp)
    have hrest : ∀ l ∈ bad, pyLower l ≠ "y" ∧ pyLower l ≠ "n" := fun l hm =>
      hb l (by simp [hm])
    have := ih hrest
    simp [ObjectiveQuestion.prompt_answer, hl.1, hl.2, this, List.replicate_succ]

/-- Re-prompt loop of the multiple-choice question: `k` invalid lines
followed by one in-range integer line give exactly one listing-prompt-error
block per invalid line, then the final listing and prompt, acceptance of the
chosen text, and termination with exactly the suffix after the valid line
unconsumed. -/
lemma mcq_reprompt_aux (choices : List String) (bad : List String) (v : String)
    (rest : List String) (i : Int)
    (hb : ∀ l ∈ bad, ∀ j : Int, pyInt? l = some j → ¬(1 ≤ j ∧ j ≤ (choices.length : Int)))
    (hv : pyInt? v = some i) (h1 : 1 ≤ i) (h2 : i ≤ (choices.length : Int)) :
    MultipleChoiceQuestion.prompt_answer choices (bad ++ v :: rest) =
      (some (choices.getD (i.toNat - 1) "", rest),
       (List.replicate bad.length
         ((mcqListing choices ++ [mcqPromptStr choices.length]) ++ [mcqErrMsg choices.length])).flatten
        ++ (mcqListing choices ++ [mcqPromptStr choices.length])) := by
  induction bad with
  | nil => simp [MultipleChoiceQuestion.prompt_answer, hv, h1, h2]
  | cons lbad bad ih =>
    have hrest : ∀ l ∈ bad, ∀ j : Int,
        pyInt? l = some j → ¬(1 ≤ j ∧ j ≤ (choices.length : Int)) := fun l hm =>
      hb l (by simp [hm])
    have hihr := ih hrest
    rcases hp : pyInt? lbad with _ | j
    · simp [MultipleChoiceQuestion.prompt_answer, hp, hihr, List.replicate_succ]
    · have hno := hb lbad (by simp) j hp
      simp [MultipleChoiceQuestion.prompt_answer, hp, hno, hihr, List.replicate_succ]

/-- C4: for both question variants, an input stream of `k` invalid lines
followed by one valid line makes the display/re-prompt loop print the
invalid-answer message exactly once per invalid line (`k` blocks in the
trace) and terminate exactly on consuming the valid line, having recorded the
answer mapped from it. -/
theorem reprompt_once_per_invalid_line
    (bad : List String) (v : String) (rest : List String)
    (choices badC : List String) (vC : String) (restC : List String) (iC : Int)
    (hb : ∀ l ∈ bad, pyLower l ≠ "y" ∧ pyLower l ≠ "n")
    (hv : pyLower v = "y" ∨ pyLower v = "n")
    (hbC : ∀ l ∈ badC, ∀ j : Int, pyInt? l = some j → ¬(1 ≤ j ∧ j ≤ (choices.length : Int)))
    (hvC : pyInt? vC = some iC) (h1C : 1 ≤ iC) (h2C : iC ≤ (choices.length : Int)) :
    ObjectiveQuestion.prompt_answer (bad ++ v :: rest) =
      (some ((pyLower v == "y"), rest),
       (List.replicate bad.length [oqPromptStr, oqErrMsg]).flatten ++ [oqPromptStr]) ∧
    MultipleChoiceQuestion.prompt_answer choices (badC ++ vC :: restC) =
      (some (choices.getD (iC.toNat - 1) "", restC),
       (List.replicate badC.length
         ((mcqListing choices ++ [mcqPromptStr choices.length]) ++ [mcqErrMsg choices.length])).flatten
        ++ (mcqListing choices ++ [mcqPromptStr choices.length])) :=
  ⟨oq_reprompt_aux bad v rest hb hv,
   mcq_reprompt_aux choices badC vC restC iC hbC hvC h1C h2C⟩

/-- Witness for C4: two invalid yes/no lines before `"Y"`, and three invalid
choice lines (`"abc"`, `"0"`, `"4"`) before `"2"` with choices
`["a", "b", "c"]`. -/
theorem reprompt_once_per_invalid_line_witness :
    ObjectiveQuestion.prompt_answer (["x", "maybe"] ++ "Y" :: []) =
      (some ((pyLower "Y" == "y"), []),
       (List.replicate (["x", "maybe"] : List String).length [oqPromptStr, oqErrMsg]).flatten
        ++ [oqPromptStr]) ∧
    MultipleChoiceQuestion.prompt_answer ["a", "b", "c"] (["abc", "0", "4"] ++ "2" :: []) =
      (some ((["a", "b", "c"] : List String).getD ((2 : Int).toNat - 1) "", []),
       (List.replicate (["abc", "0", "4"] : List String).length
         ((mcqListing ["a", "b", "c"] ++ [mcqPromptStr 3]) ++ [mcqErrMsg 3])).flatten
        ++ (mcqListing ["a", "b", "c"] ++ [mcqPromptStr 3])) :=
  reprompt_once_per_invalid_line ["x", "maybe"] "Y" [] ["a", "b", "c"] ["abc", "0", "4"] "2" [] 2
    (by decide) (by decide)
    (by
      intro l hl j hj
      simp only [List.mem_cons, List.not_mem_nil, or_false] at hl
      rcases hl with h | h | h <;> subst h
      · rw [show pyInt? "abc" = none from rfl] at hj
        cases hj
      · rw [show pyInt? "0" = some 0 from rfl] at hj
        cases hj
        decide
      · rw [show pyInt? "4" = some 4 from rfl] at hj
        cases hj
        decide)
    (by decide) (by decide) (by decide)

/-- Witness for the amended C5 statement: completed displays record answers
for both stateful variants. -/
theorem answer_unset_until_display_witness :
    hasRecordedAnswer (Question.objective "Is the sky blue?" true (some true)) = true ∧
    hasRecordedAnswer (Question.multipleChoice "q" ["a"] "a" (some "a")) = true :=
  ⟨(answer_unset_until_display "Is the sky blue?" true "q" "a" ["a"]).2.2.2.2.2.2.1
      ["y"] (Question.objective "Is the sky blue?" true (some true)) [] (by decide),
   (answer_unset_until_display "Is the sky blue?" true "q" "a" ["a"]).2.2.2.2.2.2.2
      ["1"] (Question.multipleChoice "q" ["a"] "a" (some "a")) [] (by decide)⟩
